import Mathlib

/-!
Verification of the ingestion and deduplication pipeline of the
lead-scraper system (src/src/parsers/parser_manager.py, src/src/parsers/base.py,
src/src/database/models.py), shallowly embedded in Lean 4.

Machine integers are modelled as Nat with explicit reduction mod 2^32 where
the MD5 hash needs it; Python dictionaries with optional keys are modelled as
structures of Option-typed fields; Python truthiness of strings and numbers is
modelled explicitly.
-/

namespace LeadScraper

/-! ## MD5 (model of Python hashlib.md5(...).hexdigest()) -/

namespace MD5

def M32 : Nat := 4294967296

def add32 (a b : Nat) : Nat := (a + b) % M32

def not32 (a : Nat) : Nat := Nat.xor a 4294967295

def rotl32 (x s : Nat) : Nat :=
  Nat.lor ((Nat.shiftLeft x s) % M32) (Nat.shiftRight x (32 - s))

def K : List Nat :=
  [0xd76aa478, 0xe8c7b756, 0x242070db, 0xc1bdceee,
   0xf57c0faf, 0x4787c62a, 0xa8304613, 0xfd469501,
   0x698098d8, 0x8b44f7af, 0xffff5bb1, 0x895cd7be,
   0x6b901122, 0xfd987193, 0xa679438e, 0x49b40821,
   0xf61e2562, 0xc040b340, 0x265e5a51, 0xe9b6c7aa,
   0xd62f105d, 0x02441453, 0xd8a1e681, 0xe7d3fbc8,
   0x21e1cde6, 0xc33707d6, 0xf4d50d87, 0x455a14ed,
   0xa9e3e905, 0xfcefa3f8, 0x676f02d9, 0x8d2a4c8a,
   0xfffa3942, 0x8771f681, 0x6d9d6122, 0xfde5380c,
   0xa4beea44, 0x4bdecfa9, 0xf6bb4b60, 0xbebfbc70,
   0x289b7ec6, 0xeaa127fa, 0xd4ef3085, 0x04881d05,
   0xd9d4d039, 0xe6db99e5, 0x1fa27cf8, 0xc4ac5665,
   0xf4292244, 0x432aff97, 0xab9423a7, 0xfc93a039,
   0x655b59c3, 0x8f0ccc92, 0xffeff47d, 0x85845dd1,
   0x6fa87e4f, 0xfe2ce6e0, 0xa3014314, 0x4e0811a1,
   0xf7537e82, 0xbd3af235, 0x2ad7d2bb, 0xeb86d391]

def S : List Nat :=
  [7, 12, 17, 22, 7, 12, 17, 22, 7, 12, 17, 22, 7, 12, 17, 22,
   5, 9, 14, 20, 5, 9, 14, 20, 5, 9, 14, 20, 5, 9, 14, 20,
   4, 11, 16, 23, 4, 11, 16, 23, 4, 11, 16, 23, 4, 11, 16, 23,
   6, 10, 15, 21, 6, 10, 15, 21, 6, 10, 15, 21, 6, 10, 15, 21]

def G (i : Nat) : Nat :=
  if i < 16 then i
  else if i < 32 then (5 * i + 1) % 16
  else if i < 48 then (3 * i + 5) % 16
  else (7 * i) % 16

def F (i b c d : Nat) : Nat :=
  if i < 16 then Nat.lor (Nat.land b c) (Nat.land (not32 b) d)
  else if i < 32 then Nat.lor (Nat.land d b) (Nat.land (not32 d) c)
  else if i < 48 then Nat.xor b (Nat.xor c d)
  else Nat.xor c (Nat.lor b (not32 d))

def step (M : List Nat) (st : Nat × Nat × Nat × Nat) (i : Nat) :
    Nat × Nat × Nat × Nat :=
  let f := (F i st.2.1 st.2.2.1 st.2.2.2 + st.1 + K.getD i 0 + M.getD (G i) 0) % M32
  (st.2.2.2, add32 st.2.1 (rotl32 f (S.getD i 0)), st.2.1, st.2.2.1)

def processBlock (st : Nat × Nat × Nat × Nat) (M : List Nat) :
    Nat × Nat × Nat × Nat :=
  let r := (List.range 64).foldl (step M) st
  (add32 st.1 r.1, add32 st.2.1 r.2.1, add32 st.2.2.1 r.2.2.1,
   add32 st.2.2.2 r.2.2.2)

def padMessage (bytes : List Nat) : List Nat :=
  let len := bytes.length
  let padZeros := (119 - len % 64) % 64
  let bitlen := (len * 8) % (2 ^ 64)
  bytes ++ [128] ++ List.replicate padZeros 0
    ++ (List.range 8).map (fun i => bitlen / (2 ^ (8 * i)) % 256)

def toWords (chunk : List Nat) : List Nat :=
  (List.range 16).map (fun j =>
    chunk.getD (4 * j) 0 + 256 * chunk.getD (4 * j + 1) 0
      + 65536 * chunk.getD (4 * j + 2) 0
      + 16777216 * chunk.getD (4 * j + 3) 0)

def wordLE (w : Nat) : List Nat :=
  [w % 256, w / 256 % 256, w / 65536 % 256, w / 16777216 % 256]

def md5bytes (msg : List Nat) : List Nat :=
  let padded := padMessage msg
  let st := (List.range (padded.length / 64)).foldl
    (fun st i => processBlock st (toWords ((padded.drop (64 * i)).take 64)))
    (0x67452301, 0xefcdab89, 0x98badcfe, 0x10325476)
  wordLE st.1 ++ wordLE st.2.1 ++ wordLE st.2.2.1 ++ wordLE st.2.2.2

def hexChar (n : Nat) : Char :=
  if n < 10 then Char.ofNat (48 + n) else Char.ofNat (87 + n)

def byteHex (b : Nat) : String :=
  String.mk [hexChar (b / 16 % 16), hexChar (b % 16)]

def bytesHex : List Nat → String
  | [] => ""
  | b :: bs => byteHex b ++ bytesHex bs

def utf8Char (c : Char) : List Nat :=
  let n := c.toNat
  if n < 128 then [n]
  else if n < 2048 then [192 + n / 64, 128 + n % 64]
  else if n < 65536 then
    [224 + n / 4096, 128 + n / 64 % 64, 128 + n % 64]
  else
    [240 + n / 262144, 128 + n / 4096 % 64, 128 + n / 64 % 64, 128 + n % 64]

def utf8Encode (s : String) : List Nat :=
  s.data.foldr (fun c acc => utf8Char c ++ acc) []

end MD5

/-- Model of Python `hashlib.md5(key.encode()).hexdigest()`. -/
def md5hex (s : String) : String :=
  MD5.bytesHex (MD5.md5bytes (MD5.utf8Encode s))

/-! ## Record Normalizer (src/src/parsers/base.py) -/

/-- Embedding of `BaseParser.normalize_phone` (src/src/parsers/base.py,
lines 63-87): strip non-digits; `375...` gets a `+`; a leading `80` is
replaced with `+375`; exactly 9 digits get `+375`; otherwise return the
input unchanged.  An empty input (Python falsy `str`) yields `None`. -/
def normalize_phone (phone : String) : Option String :=
  if phone.data.isEmpty then none
  else
    let digits := phone.data.filter Char.isDigit
    if "375".data.isPrefixOf digits then some (String.mk ('+' :: digits))
    else if "80".data.isPrefixOf digits then
      some (String.mk ("+375".data ++ digits.drop 2))
    else if digits.length = 9 then some (String.mk ("+375".data ++ digits))
    else some phone

/-- A raw-payload value: Python `isinstance(value, str)` distinguishes
string values from everything else. -/
inductive RawVal where
  | vstr : String → RawVal
  | vother : RawVal
deriving Repr, DecidableEq

/-- The four social-handle slots returned by `extract_social_links`. -/
structure Socials where
  instagram : Option String
  facebook : Option String
  vk : Option String
  telegram : Option String
deriving Repr, DecidableEq

/-- Python `str.lower()` (character-wise lowercasing). -/
def pyLower (s : String) : String :=
  String.mk (s.data.map Char.toLower)

/-- Helper for substring containment on character lists. -/
def containsAux (sub : List Char) : List Char → Bool
  | [] => sub.isEmpty
  | c :: rest => sub.isPrefixOf (c :: rest) || containsAux sub rest

/-- Python `sub in s` on strings. -/
def containsSub (sub s : String) : Bool :=
  containsAux sub.data s.data

/-- One iteration of the field loop in `BaseParser.extract_social_links`
(src/src/parsers/base.py, lines 107-117). -/
def socialStep (socials : Socials) (kv : String × RawVal) : Socials :=
  match kv.2 with
  | .vother => socials
  | .vstr value =>
    let l := pyLower value
    if containsSub "instagram.com" l || containsSub "@" l then
      { socials with instagram := some value }
    else if containsSub "facebook.com" l || containsSub "fb.com" l then
      { socials with facebook := some value }
    else if containsSub "vk.com" l then
      { socials with vk := some value }
    else if containsSub "t.me" l || containsSub "telegram" l then
      { socials with telegram := some value }
    else socials

/-- Embedding of `BaseParser.extract_social_links` (src/src/parsers/base.py,
lines 89-119); the raw payload is an insertion-ordered association list,
matching Python dict iteration order. -/
def extract_social_links (raw : List (String × RawVal)) : Socials :=
  raw.foldl socialStep ⟨none, none, none, none⟩

/-! ## Data model (src/src/database/models.py) and canonical records -/

/-- Python truthiness of an optional string value
(`None` and `""` are falsy). -/
def strTruthy : Option String → Bool
  | none => false
  | some s => !s.data.isEmpty

/-- Python truthiness of an optional rational value (`None` and `0` falsy);
models the float `rating`, on which the code only tests truthiness and
copies values, never computes. -/
def ratTruthy : Option ℚ → Bool
  | none => false
  | some q => decide (q ≠ 0)

/-- Python truthiness of an optional integer value (`None` and `0` falsy). -/
def natTruthy : Option Nat → Bool
  | none => false
  | some n => decide (n ≠ 0)

/-- Python `str.strip()`. -/
def pyStrip (s : String) : String :=
  String.mk (((s.data.dropWhile Char.isWhitespace).reverse.dropWhile
    Char.isWhitespace).reverse)

/-- Python `'|'.join(parts)`. -/
def joinPipe : List String → String
  | [] => ""
  | [s] => s
  | s :: rest => s ++ "|" ++ joinPipe rest

/-- A raw/normalized company record (the `company_data` dict handed to
`ParserManager._save_company`); every key is optional, `none` standing for
an absent key or a `None` value. -/
structure Record where
  name : Option String := none
  address : Option String := none
  phone : Option String := none
  email : Option String := none
  website : Option String := none
  instagram : Option String := none
  facebook : Option String := none
  vk : Option String := none
  telegram : Option String := none
  city : Option String := none
  district : Option String := none
  latitude : Option ℚ := none
  longitude : Option ℚ := none
  rating : Option ℚ := none
  reviews_count : Option Nat := none
  source : Option String := none
  source_id : Option String := none
  source_url : Option String := none
  raw_data : Option String := none
deriving Repr, DecidableEq

/-- `companies` row (src/src/database/models.py, class `Company`).  The
model declares `name` as `nullable=False`, but the pipeline can hand it
`None`, so the embedding keeps it optional to express that state. -/
structure Company where
  id : Nat
  name : Option String
  address : Option String
  phone : Option String
  email : Option String
  website : Option String
  instagram : Option String
  facebook : Option String
  vk : Option String
  telegram : Option String
  category_id : Nat
  city : Option String
  district : Option String
  latitude : Option ℚ
  longitude : Option ℚ
  rating : Option ℚ
  reviews_count : Nat
  source : Option String
  source_id : Option String
  source_url : Option String
  raw_data : Option String
  dedup_hash : String
  created_at : Int
  updated_at : Int
  last_scraped_at : Option Int
  is_active : Bool
deriving Repr, DecidableEq

/-- `categories` row (src/src/database/models.py, class `Category`). -/
structure Category where
  id : Nat
  name : String
  name_ru : String
deriving Repr, DecidableEq

/-- `scrape_sessions` row (src/src/database/models.py,
class `ScrapeSession`); timestamps are seconds as integers. -/
structure ScrapeSession where
  id : Nat
  source : String
  status : String
  total_scraped : Nat
  new_companies : Nat
  updated_companies : Nat
  errors_count : Nat
  started_at : Option Int
  completed_at : Option Int
  duration_seconds : Option Int
  error_message : Option String
deriving Repr, DecidableEq

/-- `scrape_results` row (src/src/database/models.py,
class `ScrapeResult`). -/
structure ScrapeResult where
  session_id : Nat
  company_id : Nat
  action : String
deriving Repr, DecidableEq

/-- The persisted store: table contents in insertion order plus the
autoincrement counters the ORM would assign on flush. -/
structure DB where
  categories : List Category
  companies : List Company
  sessions : List ScrapeSession
  results : List ScrapeResult
  nextCompanyId : Nat
  nextSessionId : Nat
deriving Repr, DecidableEq

/-- Replace the first element satisfying `p` by its image under `f`
(SQLAlchemy `query(...).first()` followed by in-place mutation). -/
def replaceFirst {α : Type} (p : α → Bool) (f : α → α) : List α → List α
  | [] => []
  | x :: xs => if p x then f x :: xs else x :: replaceFirst p f xs

/-! ## Identity Resolver and Merge Engine
(src/src/parsers/parser_manager.py) -/

/-- Embedding of `ParserManager._generate_dedup_hash`
(src/src/parsers/parser_manager.py, lines 237-264): phone if truthy, else
lowered/stripped name and/or address (each appended when truthy), with a
fallback to `source|source_id` when no part was collected; the pipe-joined
key is MD5-hashed. -/
def generate_dedup_hash (r : Record) : String :=
  let keyParts :=
    if strTruthy r.phone then [r.phone.getD ""]
    else
      (if strTruthy r.name then [pyStrip (pyLower (r.name.getD ""))] else [])
        ++ (if strTruthy r.address then [pyStrip (pyLower (r.address.getD ""))] else [])
  let keyParts :=
    if keyParts.isEmpty then [r.source.getD "", r.source_id.getD ""]
    else keyParts
  md5hex (joinPipe keyParts)

/-- Line 275 of src/src/parsers/parser_manager.py:
`if new_data.get('phone') and not company.phone`. -/
def fillPhone (r : Record) (c : Company) : Company :=
  if strTruthy r.phone && !strTruthy c.phone then { c with phone := r.phone }
  else c

/-- Line 278 of src/src/parsers/parser_manager.py:
`if new_data.get('email') and not company.email`. -/
def fillEmail (r : Record) (c : Company) : Company :=
  if strTruthy r.email && !strTruthy c.email then { c with email := r.email }
  else c

/-- Line 281 of src/src/parsers/parser_manager.py:
`if new_data.get('website') and not company.website`. -/
def fillWebsite (r : Record) (c : Company) : Company :=
  if strTruthy r.website && !strTruthy c.website then
    { c with website := r.website }
  else c

/-- Line 284 of src/src/parsers/parser_manager.py:
`if new_data.get('instagram') and not company.instagram`. -/
def fillInstagram (r : Record) (c : Company) : Company :=
  if strTruthy r.instagram && !strTruthy c.instagram then
    { c with instagram := r.instagram }
  else c

/-- Line 287 of src/src/parsers/parser_manager.py:
`if new_data.get('rating')` — an unconditional assignment guarded only by
the truthiness of the incoming value. -/
def fillRating (r : Record) (c : Company) : Company :=
  if ratTruthy r.rating then { c with rating := r.rating } else c

/-- Line 290 of src/src/parsers/parser_manager.py:
`if new_data.get('reviews_count')`. -/
def fillReviews (r : Record) (c : Company) : Company :=
  if natTruthy r.reviews_count then
    { c with reviews_count := r.reviews_count.getD 0 }
  else c

/-- Embedding of `ParserManager._update_company`
(src/src/parsers/parser_manager.py, lines 266-294): the six conditional
field assignments in source order, then the unconditional refresh of
`last_scraped_at` and `updated_at`. -/
def update_company (c : Company) (r : Record) (now : Int) : Company :=
  let c6 := fillReviews r (fillRating r (fillInstagram r (fillWebsite r
    (fillEmail r (fillPhone r c)))))
  { c6 with last_scraped_at := some now, updated_at := now }

/-- The new `Company` row built in the create branch of
`ParserManager._save_company` (src/src/parsers/parser_manager.py,
lines 186-215). -/
def new_company (r : Record) (catId : Nat) (h : String) (cid : Nat)
    (now : Int) : Company :=
  { id := cid, name := r.name, address := r.address, phone := r.phone,
    email := r.email, website := r.website, instagram := r.instagram,
    facebook := r.facebook, vk := r.vk, telegram := r.telegram,
    category_id := catId, city := r.city, district := r.district,
    latitude := r.latitude, longitude := r.longitude, rating := r.rating,
    reviews_count := r.reviews_count.getD 0, source := r.source,
    source_id := r.source_id, source_url := r.source_url,
    raw_data := r.raw_data, dedup_hash := h, created_at := now,
    updated_at := now, last_scraped_at := some now, is_active := true }

/-- Session-statistics update in `ParserManager._save_company`
(src/src/parsers/parser_manager.py, lines 227-233). -/
def bump_stats (action : String) (s : ScrapeSession) : ScrapeSession :=
  let s1 := { s with total_scraped := s.total_scraped + 1 }
  if action == "created" then
    { s1 with new_companies := s1.new_companies + 1 }
  else if action == "updated" then
    { s1 with updated_companies := s1.updated_companies + 1 }
  else s1

/-- Category lookup at the top of `ParserManager._save_company`
(src/src/parsers/parser_manager.py, lines 162-164). -/
def find_category (db : DB) (catName : String) : Option Category :=
  db.categories.find? (fun c => c.name == catName)

/-- Existing-company lookup in `ParserManager._save_company`
(src/src/parsers/parser_manager.py, lines 173-175). -/
def find_company (companies : List Company) (h : String) : Option Company :=
  companies.find? (fun c => c.dedup_hash == h)

/-- Embedding of `ParserManager._save_company`
(src/src/parsers/parser_manager.py, lines 146-235).  Returns the action
recorded in the `ScrapeResult` row (`none` when the category was unknown
and the call returned early) together with the updated store. -/
def save_company (r : Record) (catName : String) (sid : Nat) (now : Int)
    (db : DB) : Option String × DB :=
  match find_category db catName with
  | none => (none, db)
  | some cat =>
    let h := generate_dedup_hash r
    match find_company db.companies h with
    | some existing =>
      (some "updated",
       { db with
         companies := replaceFirst (fun c => c.dedup_hash == h)
           (fun c => update_company c r now) db.companies,
         results := db.results ++ [⟨sid, existing.id, "updated"⟩],
         sessions := replaceFirst (fun s => s.id == sid)
           (bump_stats "updated") db.sessions })
    | none =>
      (some "created",
       { db with
         companies := db.companies
           ++ [new_company r cat.id h db.nextCompanyId now],
         results := db.results ++ [⟨sid, db.nextCompanyId, "created"⟩],
         sessions := replaceFirst (fun s => s.id == sid)
           (bump_stats "created") db.sessions,
         nextCompanyId := db.nextCompanyId + 1 })

/-! ## Session Accountant and Ingestion Coordinator
(src/src/parsers/parser_manager.py) -/

/-- Embedding of `ParserManager._create_scrape_session`
(src/src/parsers/parser_manager.py, lines 94-114). -/
def create_scrape_session (source : String) (now : Int) (db : DB) :
    Nat × DB :=
  let sid := db.nextSessionId
  (sid,
   { db with
     sessions := db.sessions ++ [⟨sid, source, "started", 0, 0, 0, 0,
       some now, none, none, none⟩],
     nextSessionId := sid + 1 })

/-- Embedding of `ParserManager._complete_scrape_session`
(src/src/parsers/parser_manager.py, lines 116-144): unconditionally sets
status, completion time and error message on the session (if found) and
recomputes the duration. -/
def complete_scrape_session (sid : Nat) (status : String)
    (err : Option String) (now : Int) (db : DB) : DB :=
  { db with
    sessions := replaceFirst (fun s => s.id == sid)
      (fun s =>
        let s1 := { s with status := status, completed_at := some now,
                           error_message := err }
        match s1.started_at, s1.completed_at with
        | some st, some ct => { s1 with duration_seconds := some (ct - st) }
        | _, _ => s1)
      db.sessions }

/-- A Source Adapter: `search_by_category category limit` either raises
(`Except.error`) or yields a finite record list (`Except.ok`). -/
structure Parser where
  source_name : String
  search_by_category : String → Nat → Except String (List Record)

/-- Embedding of `ParserManager._run_parser`
(src/src/parsers/parser_manager.py, lines 56-92): per category, fetch with
`limit=100` and save every record; a raising category is logged and
skipped, leaving the store untouched for that category. -/
def runParser (p : Parser) (categories : List String) (sid : Nat)
    (now : Int) (db : DB) : DB :=
  categories.foldl
    (fun db cat =>
      match p.search_by_category cat 100 with
      | .error _ => db
      | .ok recs => recs.foldl
          (fun db r => (save_company r cat sid now db).2) db)
    db

/-- Embedding of `ParserManager.run_all_parsers`
(src/src/parsers/parser_manager.py, lines 30-54): create an
`all_sources` session, run every parser over every category, then mark
the session completed.  Per-category exceptions are already contained
inside `runParser`, so this run always reaches the completed branch. -/
def run_all_parsers (parsers : List Parser) (categories : List String)
    (now : Int) (db : DB) : DB :=
  let sdb := create_scrape_session "all_sources" now db
  let db2 := parsers.foldl
    (fun db p => runParser p categories sdb.1 now db) sdb.2
  complete_scrape_session sdb.1 "completed" none now db2

/-! ## Spec-side definitions used to state corrected claims -/

/-- The amended identity-resolution key (C2): phone when truthy; else the
lowered/stripped name and address joined by a pipe when both are truthy,
or whichever one of them is truthy on its own; only when phone, name and
address are all absent/empty does the key fall back to
`source|source_id`. -/
def dedupKeySpec (r : Record) : String :=
  if strTruthy r.phone then r.phone.getD ""
  else if strTruthy r.name && strTruthy r.address then
    pyStrip (pyLower (r.name.getD "")) ++ "|" ++ pyStrip (pyLower (r.address.getD ""))
  else if strTruthy r.name then pyStrip (pyLower (r.name.getD ""))
  else if strTruthy r.address then pyStrip (pyLower (r.address.getD ""))
  else (r.source.getD "") ++ "|" ++ (r.source_id.getD "")

/-- The string-valued fields of a raw payload, in iteration order. -/
def stringFields (raw : List (String × RawVal)) : List String :=
  raw.filterMap (fun kv => match kv.2 with
    | .vstr s => some s
    | .vother => none)

/-- Last element of the list satisfying `p`, or `none`. -/
def lastMatch (p : String → Bool) : List String → Option String
  | [] => none
  | s :: rest =>
    match lastMatch p rest with
    | some v => some v
    | none => if p s then some s else none

/-- Instagram classification condition of `extract_social_links`:
`instagram.com` or a `@` anywhere in the lower-cased value. -/
def assignInsta (s : String) : Bool :=
  containsSub "instagram.com" (pyLower s) || containsSub "@" (pyLower s)

/-- Facebook branch condition: facebook fragment present and the earlier
instagram branch not taken. -/
def assignFb (s : String) : Bool :=
  (containsSub "facebook.com" (pyLower s) || containsSub "fb.com" (pyLower s))
    && !assignInsta s

/-- VK branch condition: `vk.com` present and no earlier branch taken. -/
def assignVk (s : String) : Bool :=
  containsSub "vk.com" (pyLower s) && !assignInsta s
    && !(containsSub "facebook.com" (pyLower s) || containsSub "fb.com" (pyLower s))

/-- Telegram branch condition: `t.me` or `telegram` present and no
earlier branch taken. -/
def assignTg (s : String) : Bool :=
  (containsSub "t.me" (pyLower s) || containsSub "telegram" (pyLower s))
    && !assignInsta s
    && !(containsSub "facebook.com" (pyLower s) || containsSub "fb.com" (pyLower s))
    && !containsSub "vk.com" (pyLower s)

/-- First-of-two options (used to state fold lemmas about `socialStep`). -/
def orO (a b : Option String) : Option String :=
  match a with
  | some v => some v
  | none => b

/-! ## Concrete fixtures for witnesses and counterexamples -/

/-- An empty record (all keys absent). -/
def emptyRecord : Record := {}

/-- A company with every optional field absent, used as a base for
concrete counterexamples. -/
def emptyCompany : Company :=
  { id := 1, name := none, address := none, phone := none, email := none,
    website := none, instagram := none, facebook := none, vk := none,
    telegram := none, category_id := 1, city := none, district := none,
    latitude := none, longitude := none, rating := none, reviews_count := 0,
    source := none, source_id := none, source_url := none, raw_data := none,
    dedup_hash := "", created_at := 0, updated_at := 0,
    last_scraped_at := none, is_active := true }

/-- A store holding one category (`"cleaning"`), one started session and
no companies. -/
def db0 : DB :=
  { categories := [⟨1, "cleaning", "Cleaning"⟩],
    companies := [],
    sessions := [⟨1, "all_sources", "started", 0, 0, 0, 0, some 0, none,
      none, none⟩],
    results := [],
    nextCompanyId := 1,
    nextSessionId := 2 }

/-- Record fixture for the C2 counterexample: a name but no phone, no
address, and both source fields present. -/
def c2ExRecord : Record :=
  { name := some "A", source := some "s", source_id := some "i" }

/-- Raw-payload fixture for the C9 counterexample: a true instagram URL
field followed by a non-URL value containing an interior `@`. -/
def c9ExRaw : List (String × RawVal) :=
  [("url", .vstr "instagram.com/x"), ("mail", .vstr "a@b")]

/-- Company fixture for the C4 counterexample: non-null rating 4 and
review count 7. -/
def c4ExCompany : Company :=
  { emptyCompany with rating := some 4, reviews_count := 7 }

/-- Record fixture for the C4 counterexample: present rating 0 and
present review count 0. -/
def c4ExRecord : Record := { rating := some 0, reviews_count := some 0 }

/-- Record fixture for the C1 witness. -/
def c1Record : Record :=
  { name := some "Shine Co", phone := some "+375291234567" }

/-- Record fixture for C6: a phone but no name at all. -/
def c6ExRecord : Record :=
  { phone := some "+375291234567", source := some "yandex_maps" }

/-- Record returned by the working adapter for category `a`. -/
def recA : Record := { name := some "Alpha", phone := some "+375291111111" }

/-- Record returned by the working adapter for category `b`. -/
def recB : Record := { name := some "Beta", phone := some "+375292222222" }

/-- Record returned by the failing adapter for category `b`. -/
def recC : Record := { name := some "Gamma", phone := some "+375293333333" }

/-- An adapter that raises on every call for category `a` and succeeds
for category `b`. -/
def failingParser : Parser :=
  ⟨"badsource", fun cat _ => if cat == "a" then .error "boom"
    else .ok [recC]⟩

/-- An adapter that succeeds for both categories. -/
def workingParser : Parser :=
  ⟨"goodsource", fun cat _ => if cat == "a" then .ok [recA]
    else .ok [recB]⟩

/-- A store with the two categories `a` and `b` and nothing else. -/
def dbRun : DB :=
  { categories := [⟨1, "a", "A"⟩, ⟨2, "b", "B"⟩], companies := [],
    sessions := [], results := [], nextCompanyId := 1, nextSessionId := 1 }

/-! ## Helper lemmas -/

theorem fillPhone_eq (r : Record) (c : Company) :
    fillPhone r c = { c with
      phone :=
        if strTruthy r.phone && !strTruthy c.phone then r.phone
        else c.phone } := by
  unfold fillPhone
  split <;> rfl

theorem fillEmail_eq (r : Record) (c : Company) :
    fillEmail r c = { c with
      email :=
        if strTruthy r.email && !strTruthy c.email then r.email
        else c.email } := by
  unfold fillEmail
  split <;> rfl

theorem fillWebsite_eq (r : Record) (c : Company) :
    fillWebsite r c = { c with
      website :=
        if strTruthy r.website && !strTruthy c.website then r.website
        else c.website } := by
  unfold fillWebsite
  split <;> rfl

theorem fillInstagram_eq (r : Record) (c : Company) :
    fillInstagram r c = { c with
      instagram :=
        if strTruthy r.instagram && !strTruthy c.instagram then r.instagram
        else c.instagram } := by
  unfold fillInstagram
  split <;> rfl

theorem fillRating_eq (r : Record) (c : Company) :
    fillRating r c = { c with
      rating :=
        if ratTruthy r.rating then r.rating else c.rating } := by
  unfold fillRating
  split <;> rfl

theorem fillReviews_eq (r : Record) (c : Company) :
    fillReviews r c = { c with
      reviews_count :=
        if natTruthy r.reviews_count then r.reviews_count.getD 0
        else c.reviews_count } := by
  unfold fillReviews
  split <;> rfl

/-- Full characterization of `_update_company`: every field assignment of
the Python function, collected into one record expression. -/
theorem update_company_eq (c : Company) (r : Record) (now : Int) :
    update_company c r now = { c with
      phone :=
        if strTruthy r.phone && !strTruthy c.phone then r.phone
        else c.phone,
      email :=
        if strTruthy r.email && !strTruthy c.email then r.email
        else c.email,
      website :=
        if strTruthy r.website && !strTruthy c.website then r.website
        else c.website,
      instagram :=
        if strTruthy r.instagram && !strTruthy c.instagram then r.instagram
        else c.instagram,
      rating :=
        if ratTruthy r.rating then r.rating else c.rating,
      reviews_count :=
        if natTruthy r.reviews_count then r.reviews_count.getD 0
        else c.reviews_count,
      last_scraped_at := some now,
      updated_at := now } := by
  simp only [update_company, fillPhone_eq, fillEmail_eq, fillWebsite_eq,
    fillInstagram_eq, fillRating_eq, fillReviews_eq]

theorem update_company_dedup (c : Company) (r : Record) (now : Int) :
    (update_company c r now).dedup_hash = c.dedup_hash := by
  simp [update_company_eq]

theorem replaceFirst_length {α : Type} (p : α → Bool) (f : α → α)
    (l : List α) : (replaceFirst p f l).length = l.length := by
  induction l with
  | nil => rfl
  | cons x xs ih => by_cases hx : p x = true <;> simp [replaceFirst, hx, ih]

theorem replaceFirst_countP {α : Type} (p : α → Bool) (f : α → α)
    (l : List α) (hf : ∀ a, p (f a) = p a) :
    (replaceFirst p f l).countP p = l.countP p := by
  induction l with
  | nil => rfl
  | cons x xs ih =>
    by_cases hx : p x = true <;>
      simp [replaceFirst, hx, List.countP_cons, hf, ih]

/-- The create branch of `_save_company`: with a known category and no
existing company for the key, a new `Company` row is appended, a
`created` result row is written and the session counters are bumped. -/
theorem save_company_created (r : Record) (catName : String) (sid : Nat)
    (now : Int) (db : DB) (cat : Category)
    (hcat : find_category db catName = some cat)
    (hnone : find_company db.companies (generate_dedup_hash r) = none) :
    save_company r catName sid now db = (some "created",
      { db with
        companies := db.companies ++
          [new_company r cat.id (generate_dedup_hash r) db.nextCompanyId now],
        results := db.results ++ [⟨sid, db.nextCompanyId, "created"⟩],
        sessions := replaceFirst (fun s => s.id == sid)
          (bump_stats "created") db.sessions,
        nextCompanyId := db.nextCompanyId + 1 }) := by
  simp only [save_company, hcat, hnone]

/-- The update branch of `_save_company`: with a known category and an
existing company for the key, the first matching company is updated in
place, an `updated` result row is written and the session counters are
bumped. -/
theorem save_company_updated (r : Record) (catName : String) (sid : Nat)
    (now : Int) (db : DB) (cat : Category) (existing : Company)
    (hcat : find_category db catName = some cat)
    (hfound : find_company db.companies (generate_dedup_hash r)
      = some existing) :
    save_company r catName sid now db = (some "updated",
      { db with
        companies := replaceFirst
          (fun c => c.dedup_hash == generate_dedup_hash r)
          (fun c => update_company c r now) db.companies,
        results := db.results ++ [⟨sid, existing.id, "updated"⟩],
        sessions := replaceFirst (fun s => s.id == sid)
          (bump_stats "updated") db.sessions }) := by
  simp only [save_company, hcat, hfound]

theorem find_company_append_single (cs : List Company) (c : Company)
    (key : String) (hn : find_company cs key = none)
    (hc : c.dedup_hash = key) :
    find_company (cs ++ [c]) key = some c := by
  unfold find_company at *
  rw [List.find?_append, hn]
  simp [List.find?, hc]

theorem byteHex_length (b : Nat) : (MD5.byteHex b).length = 2 := rfl

theorem bytesHex_length (l : List Nat) :
    (MD5.bytesHex l).length = 2 * l.length := by
  induction l with
  | nil => rfl
  | cons b bs ih =>
    simp only [MD5.bytesHex, String.length_append, byteHex_length, ih,
      List.length_cons]
    omega

theorem md5bytes_length (m : List Nat) : (MD5.md5bytes m).length = 16 := by
  simp [MD5.md5bytes, MD5.wordLE]

theorem md5hex_length (s : String) : (md5hex s).length = 32 := by
  simp [md5hex, bytesHex_length, md5bytes_length]

theorem orO_none (a : Option String) : orO a none = a := by
  cases a <;> rfl

theorem orO_assoc (a b c : Option String) :
    orO (orO a b) c = orO a (orO b c) := by
  cases a <;> rfl

theorem lastMatch_cons (p : String → Bool) (s : String) (l : List String) :
    lastMatch p (s :: l) = orO (lastMatch p l)
      (if p s then some s else none) := by
  simp only [lastMatch]
  cases lastMatch p l <;> simp [orO]

/-- One field-loop step of `extract_social_links` on a string value,
expressed through the branch-priority predicates. -/
theorem socialStep_eq (socials : Socials) (k : String) (s : String) :
    socialStep socials (k, .vstr s) = {
      instagram := orO (if assignInsta s then some s else none)
        socials.instagram,
      facebook := orO (if assignFb s then some s else none) socials.facebook,
      vk := orO (if assignVk s then some s else none) socials.vk,
      telegram := orO (if assignTg s then some s else none)
        socials.telegram } := by
  simp only [socialStep]
  by_cases h1 :
    (containsSub "instagram.com" (pyLower s) || containsSub "@" (pyLower s)) = true <;>
  by_cases h2 :
    (containsSub "facebook.com" (pyLower s) || containsSub "fb.com" (pyLower s)) = true <;>
  by_cases h3 : containsSub "vk.com" (pyLower s) = true <;>
  by_cases h4 :
    (containsSub "t.me" (pyLower s) || containsSub "telegram" (pyLower s)) = true <;>
  simp [h1, h2, h3, h4, assignInsta, assignFb, assignVk, assignTg, orO]

/-- The fold of `extract_social_links` from an arbitrary accumulator:
each platform slot ends as the last matching string field, falling back
to the accumulator's value. -/
theorem extract_fold (raw : List (String × RawVal)) :
    ∀ socials : Socials, raw.foldl socialStep socials = {
      instagram := orO (lastMatch assignInsta (stringFields raw))
        socials.instagram,
      facebook := orO (lastMatch assignFb (stringFields raw))
        socials.facebook,
      vk := orO (lastMatch assignVk (stringFields raw)) socials.vk,
      telegram := orO (lastMatch assignTg (stringFields raw))
        socials.telegram } := by
  induction raw with
  | nil => intro socials; simp [stringFields, lastMatch, orO]
  | cons kv rest ih =>
    intro socials
    obtain ⟨k, v⟩ := kv
    cases v with
    | vother =>
      have hstep : socialStep socials (k, RawVal.vother) = socials := rfl
      simp [List.foldl_cons, hstep, ih, stringFields]
    | vstr s =>
      simp [List.foldl_cons, socialStep_eq, ih, stringFields,
        lastMatch_cons, orO_assoc]

/-! ## Claim theorems -/

/-- C5: phone normalization is a pure total function of the input string
(hence never raises) and satisfies the four literal scenarios of the
spec: `80...` gets the trunk prefix replaced, a formatted `+375` number is
stripped to digits and re-prefixed, a bare 9-digit number is prefixed
with `+375`, and a string that fits no rule is returned unchanged. -/
theorem c5_normalize_phone_scenarios :
    normalize_phone "80291234567" = some "+375291234567" ∧
    normalize_phone "+375 29 123-45-67" = some "+375291234567" ∧
    normalize_phone "291234567" = some "+375291234567" ∧
    normalize_phone "123" = some "123" := by
  refine ⟨?_, ?_, ?_, ?_⟩ <;> decide

/-- C10: when the category name of an incoming record does not resolve to
a known `Category`, `_save_company` returns early: the store is returned
unchanged (no Lead created or mutated, no ScrapeResult appended, no
session counter bumped) and no action is recorded. -/
theorem c10_unknown_category_is_noop (r : Record) (catName : String)
    (sid : Nat) (now : Int) (db : DB)
    (hcat : find_category db catName = none) :
    save_company r catName sid now db = (none, db) := by
  simp [save_company, hcat]

/-- Witness for C10 at a concrete store whose only category is
`"cleaning"` and an unknown category name. -/
theorem c10_witness :
    find_category db0 "florist" = none ∧
    save_company emptyRecord "florist" 1 0 db0 = (none, db0) :=
  ⟨by decide, c10_unknown_category_is_noop emptyRecord "florist" 1 0 db0
    (by decide)⟩

/-- C3: each fill-missing field (phone, email, website, instagram) of an
existing Lead is overwritten by `_update_company` exactly when the
existing value is falsy (absent or empty) and the incoming value is
truthy (present and non-empty); otherwise it is kept.  In particular a
present differing incoming email never replaces a present email. -/
theorem c3_fill_missing_policy (c : Company) (r : Record) (now : Int) :
    ((update_company c r now).phone =
      if strTruthy r.phone && !strTruthy c.phone then r.phone else c.phone) ∧
    ((update_company c r now).email =
      if strTruthy r.email && !strTruthy c.email then r.email else c.email) ∧
    ((update_company c r now).website =
      if strTruthy r.website && !strTruthy c.website then r.website
      else c.website) ∧
    ((update_company c r now).instagram =
      if strTruthy r.instagram && !strTruthy c.instagram then r.instagram
      else c.instagram) := by
  refine ⟨?_, ?_, ?_, ?_⟩ <;> simp [update_company_eq]

set_option maxRecDepth 10000 in
/-- C2 counterexample: for a record with a name but no phone and no
address, the claim's branch 2 requires BOTH name and address and would
fall through to branch 3, predicting the key `md5("s|i")`; the code
instead keys on the name alone, `md5("a")`.  So the claimed priority
algorithm is false at this input. -/
theorem c2_counterexample :
    generate_dedup_hash c2ExRecord ≠ md5hex ("s" ++ "|" ++ "i") ∧
    generate_dedup_hash c2ExRecord = md5hex "a" := by
  constructor <;> decide

/-- C2 (amended): the dedup key is the fixed-length (32 hex characters)
MD5 of: the phone when truthy; else the lower-cased stripped name and
address joined by a pipe when BOTH are truthy, or whichever ONE of them
is truthy by itself; only when phone, name and address are all
absent/empty does it fall back to `source|source_id`.  Determinism is
inherent: `generate_dedup_hash` is a pure function of the record. -/
theorem c2_dedup_key_priority (r : Record) :
    generate_dedup_hash r = md5hex (dedupKeySpec r) ∧
    (generate_dedup_hash r).length = 32 := by
  constructor
  · unfold generate_dedup_hash dedupKeySpec
    by_cases hp : strTruthy r.phone = true
    · simp [hp, joinPipe]
    · by_cases hn : strTruthy r.name = true <;>
        by_cases ha : strTruthy r.address = true <;>
        simp [hp, hn, ha, joinPipe]
  · exact md5hex_length _

/-- C9 counterexample: the claim says a handle-only value matches
instagram only with a LEADING `@`, and that the FIRST match per platform
wins, so it predicts `instagram = "instagram.com/x"`.  The code matches
`@` anywhere in the value and later fields overwrite earlier ones, so the
interior-`@` value `"a@b"` wins. -/
theorem c9_counterexample :
    (extract_social_links c9ExRaw).instagram ≠ some "instagram.com/x" ∧
    (extract_social_links c9ExRaw).instagram = some "a@b" := by
  constructor <;> decide

/-- C9 (amended): scanning the string-valued fields in payload order,
each value is assigned to the first platform of the chain
instagram-facebook-vk-telegram whose pattern it matches, where the
instagram pattern is `instagram.com` or a `@` ANYWHERE in the lower-cased
value; when several fields are assigned to the same platform the LAST one
wins; a platform with no assigned field stays null. -/
theorem c9_social_links (raw : List (String × RawVal)) :
    (extract_social_links raw).instagram
      = lastMatch assignInsta (stringFields raw) ∧
    (extract_social_links raw).facebook
      = lastMatch assignFb (stringFields raw) ∧
    (extract_social_links raw).vk = lastMatch assignVk (stringFields raw) ∧
    (extract_social_links raw).telegram
      = lastMatch assignTg (stringFields raw) := by
  unfold extract_social_links
  rw [extract_fold raw ⟨none, none, none, none⟩]
  simp [orO_none]

/-- C4 counterexample: an incoming record with a present rating of zero
and a present review count of zero does NOT overwrite the existing
non-null values, because `_update_company` guards the assignments with a
Python truthiness test and `0` is falsy. -/
theorem c4_counterexample :
    c4ExRecord.rating = some 0 ∧ c4ExRecord.reviews_count = some 0 ∧
    (update_company c4ExCompany c4ExRecord 5).rating ≠ some 0 ∧
    (update_company c4ExCompany c4ExRecord 5).reviews_count ≠ 0 := by
  refine ⟨rfl, rfl, ?_, ?_⟩ <;> decide

/-- C4 (amended): rating and review count of an existing Lead are
overwritten by the incoming value exactly when that value is present and
non-zero; a present zero (like an absent value) leaves the existing value
unchanged. -/
theorem c4_freshness_wins_nonzero (c : Company) (r : Record) (now : Int) :
    ((update_company c r now).rating =
      if ratTruthy r.rating then r.rating else c.rating) ∧
    ((update_company c r now).reviews_count =
      if natTruthy r.reviews_count then r.reviews_count.getD 0
      else c.reviews_count) := by
  refine ⟨?_, ?_⟩ <;> simp [update_company_eq]

/-- C1: merging a record against a store with no Lead for its key and a
resolvable category creates one Lead (action `created`); merging the same
record again finds that Lead by its deduplication key and updates it
(action `updated`); afterwards exactly one Lead carries the key and the
store grew by exactly one row over the whole exchange. -/
theorem c1_merge_twice_single_lead (r : Record) (catName : String)
    (sid : Nat) (now1 now2 : Int) (db : DB) (cat : Category)
    (hcat : find_category db catName = some cat)
    (hnone : find_company db.companies (generate_dedup_hash r) = none) :
    (save_company r catName sid now1 db).1 = some "created" ∧
    (save_company r catName sid now2
      (save_company r catName sid now1 db).2).1 = some "updated" ∧
    ((save_company r catName sid now2
      (save_company r catName sid now1 db).2).2).companies.countP
      (fun c => c.dedup_hash == generate_dedup_hash r) = 1 ∧
    ((save_company r catName sid now2
      (save_company r catName sid now1 db).2).2).companies.length
      = db.companies.length + 1 := by
  have hs1 := save_company_created r catName sid now1 db cat hcat hnone
  rw [hs1]
  have hkey : (new_company r cat.id (generate_dedup_hash r)
      db.nextCompanyId now1).dedup_hash = generate_dedup_hash r := rfl
  have hcat2 : find_category (save_company r catName sid now1 db).2 catName
      = some cat := by rw [hs1]; exact hcat
  have hfound : find_company
      (db.companies ++ [new_company r cat.id (generate_dedup_hash r)
        db.nextCompanyId now1]) (generate_dedup_hash r)
      = some (new_company r cat.id (generate_dedup_hash r)
        db.nextCompanyId now1) :=
    find_company_append_single _ _ _ hnone hkey
  have hs2 := save_company_updated r catName sid now2
    ((save_company r catName sid now1 db).2) cat
    (new_company r cat.id (generate_dedup_hash r) db.nextCompanyId now1)
    hcat2 (by rw [hs1]; exact hfound)
  rw [hs1] at hs2
  rw [hs2]
  have hpres : ∀ c : Company,
      ((update_company c r now2).dedup_hash == generate_dedup_hash r)
      = (c.dedup_hash == generate_dedup_hash r) := by
    intro c
    rw [update_company_dedup]
  have hcount0 : db.companies.countP
      (fun c => c.dedup_hash == generate_dedup_hash r) = 0 := by
    apply List.countP_eq_zero.mpr
    intro a ha
    have := List.find?_eq_none.mp hnone a ha
    simpa using this
  refine ⟨rfl, rfl, ?_, ?_⟩
  · rw [replaceFirst_countP _ _ _ hpres, List.countP_append, hcount0]
    simp [List.countP_cons, hkey]
  · rw [replaceFirst_length, List.length_append]
    rfl

/-- Witness for C1 at a concrete record and store. -/
theorem c1_witness :
    find_category db0 "cleaning" = some ⟨1, "cleaning", "Cleaning"⟩ ∧
    find_company db0.companies (generate_dedup_hash c1Record) = none ∧
    ((save_company c1Record "cleaning" 1 0 db0).1 = some "created" ∧
     (save_company c1Record "cleaning" 1 5
       (save_company c1Record "cleaning" 1 0 db0).2).1 = some "updated" ∧
     ((save_company c1Record "cleaning" 1 5
       (save_company c1Record "cleaning" 1 0 db0).2).2).companies.countP
       (fun c => c.dedup_hash == generate_dedup_hash c1Record) = 1 ∧
     ((save_company c1Record "cleaning" 1 5
       (save_company c1Record "cleaning" 1 0 db0).2).2).companies.length
       = db0.companies.length + 1) :=
  ⟨rfl, rfl,
   c1_merge_twice_single_lead c1Record "cleaning" 1 0 5 db0
     ⟨1, "cleaning", "Cleaning"⟩ rfl rfl⟩

/-- C6 failing-input evidence: `_save_company` has no name guard, and
neither does the `_run_parser` loop, so a record without a name reaches
identity resolution and the create branch: a Lead whose `name` is null is
inserted (contradicting `nullable=False` on `Company.name` in
src/src/database/models.py and the spec's drop rule). -/
theorem c6_unnamed_record_creates_lead :
    (save_company c6ExRecord "cleaning" 1 0 db0).1 = some "created" ∧
    ((save_company c6ExRecord "cleaning" 1 0 db0).2).companies.map
      (fun c => c.name) = [none] := by
  constructor <;> rfl

/-- C7 failing-input evidence: `_complete_scrape_session` has no
terminal-state guard.  Finishing session 1 as `completed` at time 10 and
then calling finish again as `failed` at time 20 overwrites the status,
the completion time, the recomputed duration and the error message of the
already-terminal session, instead of being a no-op. -/
theorem c7_finish_overwrites_terminal_session :
    (complete_scrape_session 1 "completed" none 10 db0).sessions.map
      (fun s => (s.status, s.completed_at, s.duration_seconds,
        s.error_message))
      = [("completed", some 10, some 10, none)] ∧
    (complete_scrape_session 1 "failed" (some "boom") 20
      (complete_scrape_session 1 "completed" none 10 db0)).sessions.map
      (fun s => (s.status, s.completed_at, s.duration_seconds,
        s.error_message))
      = [("failed", some 20, some 20, some "boom")] := by
  constructor <;> rfl

set_option maxRecDepth 40000 in
/-- C8 evidence: with one adapter raising for category `a`, the run still
processes that adapter's other category and the whole second adapter
(three Leads are created) and the session finishes `completed` — but the
session's error count is 0, not non-zero: nothing in the code ever
increments `errors_count`. -/
theorem c8_containment_with_zero_error_count :
    (run_all_parsers [failingParser, workingParser] ["a", "b"] 0
      dbRun).sessions.map
      (fun s => (s.status, s.errors_count, s.total_scraped,
        s.new_companies, s.updated_companies))
      = [("completed", 0, 3, 3, 0)] ∧
    (run_all_parsers [failingParser, workingParser] ["a", "b"] 0
      dbRun).companies.map (fun c => c.name)
      = [some "Gamma", some "Alpha", some "Beta"] := by
  constructor <;> decide

end LeadScraper
